import Mathlib

/-!
# Verification of the agriculture-dashboard simulation engine

Shallow embedding of the two `VirtualFarm` simulation engines of the
repository (the weather-driven engine of `app.py`, treated as canonical by
the spec, and the simpler engine of `simulation.py`), together with the
sensor-network layer of `app.py`.

Reals are modelled as rationals.  Random draws (Gaussian noise, uniform
draws, failure checks) are passed in explicitly as oracle inputs; where the
source constrains a draw's range (e.g. `uniform(0.2, 0.5)`) the theorems
carry the corresponding hypothesis.  Python's `datetime` bookkeeping
(`current_date`) and the plotting layer carry no simulation logic and are
omitted.
-/

namespace Agri

/-- Python `int()` on a rational: truncation toward zero. -/
def pyInt (q : ℚ) : ℤ := if 0 ≤ q then ⌊q⌋ else ⌈q⌉

/-- One day of the weather profile: the `temperature`, `rainfall` and
`evapotranspiration` columns of the `DataFrame` built by
`generate_weather_profile`. -/
structure Weather where
  temperature : ℚ
  rainfall : ℚ
  evapotranspiration : ℚ
deriving DecidableEq

/-- The three-component `soil_moisture` vector of `app.py`
(`np.random.uniform(lo, hi, 3)`). -/
structure Vec3 where
  a : ℚ
  b : ℚ
  c : ℚ
deriving DecidableEq

/-- `np.mean` of a three-component vector. -/
def Vec3.mean (v : Vec3) : ℚ := (v.a + v.b + v.c) / 3

/-- Componentwise `np.maximum(0, v + d)` as used in `update_soil_moisture`. -/
def Vec3.shiftClamp (v : Vec3) (d : ℚ) : Vec3 :=
  ⟨max 0 (v.a + d), max 0 (v.b + d), max 0 (v.c + d)⟩

/-- Componentwise addition of a scalar (`self.soil_moisture += x`). -/
def Vec3.addScalar (v : Vec3) (d : ℚ) : Vec3 :=
  ⟨v.a + d, v.b + d, v.c + d⟩

/-- The mutable state of `app.py`'s `VirtualFarm`.  The `costs` dict is
flattened into its four fixed keys; `current_date` is omitted (pure
calendar bookkeeping). -/
structure FarmState where
  size : ℚ
  crop : String
  soil : String
  days : ℕ
  day_counter : ℕ
  soil_moisture : Vec3
  soil_N : ℚ
  soil_P : ℚ
  soil_K : ℚ
  crop_growth_stage : ℚ
  pest_pressure : ℚ
  irrigation_applied : ℚ
  fertilizer_applied : ℚ
  water_used : ℚ
  yield_kg : ℚ
  cost_system : ℚ
  cost_water : ℚ
  cost_fertilizer : ℚ
  cost_labor : ℚ
  revenue : ℚ
deriving DecidableEq

/-- `VirtualFarm.__init__` of `app.py`.  The source performs no validation
whatsoever: every argument combination constructs a farm.  The three
`uniform` draws used by `initialize_soil_moisture` are passed as
`moisture_draws`. -/
def mkVirtualFarm (size_ha : ℚ) (crop_type soil_type : String)
    (simulation_days : ℕ) (moisture_draws : Vec3) : FarmState :=
  { size := size_ha
    crop := crop_type
    soil := soil_type
    days := simulation_days
    day_counter := 0
    soil_moisture := moisture_draws
    soil_N := 50
    soil_P := 30
    soil_K := 40
    crop_growth_stage := 0
    pest_pressure := 0
    irrigation_applied := 0
    fertilizer_applied := 0
    water_used := 0
    yield_kg := 0
    cost_system := 0
    cost_water := 0
    cost_fertilizer := 0
    cost_labor := 0
    revenue := 0 }

/-- `VirtualFarm.update_soil_moisture`.  `noise` is the `np.random.normal(0, 0.2)`
draw added to the depletion term. -/
def update_soil_moisture (w : Weather) (noise : ℚ) (s : FarmState) : FarmState :=
  let depletion := 7/10 * w.evapotranspiration + noise
  let rainfall_effect := 6/10 * w.rainfall
  { s with
    soil_moisture := s.soil_moisture.shiftClamp (-depletion + rainfall_effect)
    water_used := s.water_used + depletion }

/-- `VirtualFarm.update_crop_growth`. -/
def update_crop_growth (w : Weather) (s : FarmState) : FarmState :=
  let base_growth := 8/1000 * min w.temperature 30 / 30
  let moisture_factor := s.soil_moisture.mean / 30
  let growth0 := base_growth * moisture_factor
  let growth1 := if 32 < w.temperature then growth0 * (7/10) else growth0
  let growth := if s.soil_moisture.mean < 15 then growth1 * (5/10) else growth1
  let stage := min 1 (s.crop_growth_stage + growth)
  let s1 := { s with crop_growth_stage := stage }
  if 95/100 ≤ stage then
    let stress_factor := 1 - max 0 (w.temperature - 30) / 20
    { s1 with yield_kg := s1.size * 5000 * stress_factor }
  else s1

/-- `VirtualFarm.update_pest_pressure`.  The Python boolean
`(weather.rainfall > 5)` multiplies `0.3` as a 0/1 value. -/
def update_pest_pressure (w : Weather) (s : FarmState) : FarmState :=
  let base_growth := 5/100 * w.temperature / 25
  let humidity_factor : ℚ := 1 + (if 5 < w.rainfall then 1 else 0) * (3/10)
  let p := min 1 (s.pest_pressure * (1 + base_growth) * humidity_factor)
  { s with pest_pressure := p * (95/100) }

/-- The aggregate observation record returned by
`SensorNetwork.collect_data`.  Inside `advance_day` it is treated as an
oracle input: the per-node randomness of one tick is summarised by the
aggregate it produces. -/
structure SensorData where
  soil_moisture_avg : ℚ
  soil_moisture_var : ℚ
  soil_N : ℚ
  pest_pressure : ℚ
deriving DecidableEq

/-- The transient decision record built by `VirtualFarm.decision_engine`. -/
structure Decisions where
  irrigate : Bool
  irrigation_amount : ℚ
  fertilize : Bool
  fertilizer_amount : ℚ
  apply_pesticide : Bool
deriving DecidableEq

/-- `VirtualFarm.decision_engine`.  `crop_coeff` and `etc` are computed by
the source but never used by any decision; they are reproduced here for
fidelity. -/
def decision_engine (s : FarmState) (sensor : SensorData) (w : Weather) :
    Decisions :=
  let crop_coeff : ℚ := if s.crop_growth_stage < 3/10 then 3/10
    else if s.crop_growth_stage < 7/10 then 12/10 else 6/10
  let _etc := crop_coeff * w.evapotranspiration
  let deficit := max 0 (25 - sensor.soil_moisture_avg)
  let irrigate : Bool := decide (5 < deficit)
  let irrigation_amount : ℚ := if 5 < deficit then min (deficit * (12/10)) 10 else 0
  let growth_stage := s.crop_growth_stage
  let n_def := max 0 ((40 - sensor.soil_N) * growth_stage)
  let fert_cond : Prop := 5 < n_def ∧ 2/10 < growth_stage ∧ growth_stage < 8/10
  let fertilize : Bool := decide fert_cond
  let fertilizer_amount : ℚ := if 5 < n_def ∧ 2/10 < growth_stage ∧ growth_stage < 8/10
    then min (n_def * 2) 20 else 0
  { irrigate := irrigate
    irrigation_amount := irrigation_amount
    fertilize := fertilize
    fertilizer_amount := fertilizer_amount
    apply_pesticide := decide (4/10 < sensor.pest_pressure) }

/-- `VirtualFarm.execute_actions`. -/
def execute_actions (d : Decisions) (s : FarmState) : FarmState :=
  let s1 := if d.irrigate then
      { s with
        soil_moisture := s.soil_moisture.addScalar (d.irrigation_amount * (8/10))
        irrigation_applied := s.irrigation_applied + d.irrigation_amount
        water_used := s.water_used + d.irrigation_amount }
    else s
  let s2 := if d.fertilize then
      { s1 with
        soil_N := s1.soil_N + d.fertilizer_amount * (7/10)
        fertilizer_applied := s1.fertilizer_applied + d.fertilizer_amount }
    else s1
  if d.apply_pesticide then { s2 with pest_pressure := s2.pest_pressure * (3/10) }
  else s2

/-- `VirtualFarm.update_economics`.  The revenue assignment fires when
`day_counter == days - 1` (integer comparison in the source, hence the cast
to `ℤ`). -/
def update_economics (s : FarmState) : FarmState :=
  let s1 := { s with
    cost_water := s.cost_water + s.irrigation_applied * (5/100)
    cost_fertilizer := s.cost_fertilizer + s.fertilizer_applied * (12/10)
    cost_labor := s.cost_labor + 20 / (s.days : ℚ)
    cost_system := 3500 / (365 * 5) }
  if (s1.day_counter : ℤ) = (s1.days : ℤ) - 1
  then { s1 with revenue := s1.yield_kg * (3/10) }
  else s1

/-- `VirtualFarm.advance_day` of `app.py`.  `wf` is the immutable weather
profile (indexed by `day_counter`, as `self.weather.iloc[self.day_counter]`),
`noise` the soil-moisture Gaussian draw of this tick and `sensor` this
tick's aggregate sensor observation. -/
def advance_day (wf : ℕ → Weather) (noise : ℚ) (sensor : SensorData)
    (s : FarmState) : Bool × FarmState :=
  if s.days ≤ s.day_counter then (false, s)
  else
    let w := wf s.day_counter
    let s1 := update_soil_moisture w noise s
    let s2 := update_crop_growth w s1
    let s3 := update_pest_pressure w s2
    let d := decision_engine s3 sensor w
    let s4 := execute_actions d s3
    let s5 := update_economics s4
    (true, { s5 with day_counter := s5.day_counter + 1 })

/-- `n` consecutive calls to `advance_day`, the `k`-th call drawing
`noises k` and observing `sensors k`. -/
def run_days (wf : ℕ → Weather) (noises : ℕ → ℚ) (sensors : ℕ → SensorData) :
    ℕ → FarmState → FarmState
  | 0, s => s
  | n + 1, s =>
      (advance_day wf (noises n) (sensors n) (run_days wf noises sensors n s)).2

/-- `VirtualFarm.calculate_roi`'s `total_cost = sum(self.costs.values()) * self.days`. -/
def total_cost (s : FarmState) : ℚ :=
  (s.cost_system + s.cost_water + s.cost_fertilizer + s.cost_labor) * (s.days : ℚ)

/-- `VirtualFarm.calculate_roi`. -/
def calculate_roi (s : FarmState) : ℚ :=
  if 0 < total_cost s then (s.revenue - total_cost s) / total_cost s * 100 else 0

/-! ## Sensor network (`app.py`) -/

/-- The `sensor_type` strings cycled by `initialize_network`. -/
inductive SType where
  | soilMoisture
  | nutrient
  | pest
deriving DecidableEq

/-- A `SensorNode`.  The farm back-reference is not stored: `measure`
receives the farm quantities it reads as arguments. -/
structure SensorNode where
  node_id : ℕ
  stype : SType
  pos_x : ℚ
  pos_y : ℚ
  depth : ℚ
  battery : ℚ
  operational : Bool
deriving DecidableEq

/-- `['soil_moisture', 'nutrient', 'pest'][i % 3]`. -/
def type_cycle (i : ℕ) : SType :=
  match i % 3 with
  | 0 => SType.soilMoisture
  | 1 => SType.nutrient
  | _ => SType.pest

/-- `node_count = int(self.farm.size * 1.5)`; a Python `range` over a
non-positive count is empty, matching `Int.toNat`. -/
def node_count (size : ℚ) : ℕ := (pyInt (size * (15/10))).toNat

/-- `SensorNetwork.initialize_network`.  `depths`, `xs`, `ys` are the
per-node random draws (`random.choice([0.1, 0.3, 0.6])` and the two
`random.uniform(0, sqrt(size))` position draws). -/
def initialize_network (size : ℚ) (depths xs ys : ℕ → ℚ) : List SensorNode :=
  (List.range (node_count size)).map fun i =>
    { node_id := i
      stype := type_cycle i
      pos_x := xs i
      pos_y := ys i
      depth := depths i
      battery := 100
      operational := true }

/-- Python indexing into the length-3 `soil_moisture` array: indices
`0..2` read the components, negative indices `-3..-1` wrap around, and
anything else raises `IndexError` (modelled as `none`). -/
def pyIndex3 (v : Vec3) (i : ℤ) : Option ℚ :=
  if i = 0 ∨ i = -3 then some v.a
  else if i = 1 ∨ i = -2 then some v.b
  else if i = 2 ∨ i = -1 then some v.c
  else none

/-- The array index computed by `measure` for a soil-moisture node:
`int(self.position[2]*10) // 10 - 1` (Python `//` is floor division). -/
def sm_index (depth : ℚ) : ℤ := Int.fdiv (pyInt (depth * 10)) 10 - 1

/-- `SensorNode.measure`.  Oracle draws: `drain` is
`random.uniform(0.1, 0.5)`, `fail_draw` the `random.random()` checked
against `0.005`, `noise` the per-type Gaussian draw.  Returns the reading
(`none` meaning Python `None`, or an out-of-range index error for the
soil-moisture array) together with the updated node. -/
def measure (farm_sm : Vec3) (farm_N farm_pest : ℚ)
    (drain fail_draw noise : ℚ) (node : SensorNode) :
    Option ℚ × SensorNode :=
  if node.operational = false then (none, node)
  else
    let node1 := { node with battery := node.battery - drain }
    if fail_draw < 5/1000 then (none, { node1 with operational := false })
    else
      match node.stype with
      | SType.soilMoisture =>
          ((pyIndex3 farm_sm (sm_index node.depth)).map
            (fun true_value => max 0 (true_value + noise)), node1)
      | SType.nutrient => (some (max 0 (farm_N + noise)), node1)
      | SType.pest =>
          (some (max 0 (min 100 (farm_pest * 100 + noise))), node1)

/-- `SensorNetwork.calculate_uptime`:
`sum(1 for node in self.nodes if node.operational) / len(self.nodes) * 100`.
On an empty node list the source raises `ZeroDivisionError`, modelled as
`none`. -/
def calculate_uptime (nodes : List SensorNode) : Option ℚ :=
  if nodes.length = 0 then none
  else some (((nodes.countP (fun n => n.operational)) : ℚ) / (nodes.length : ℚ) * 100)

/-! ## The simpler engine (`simulation.py`) -/

/-- The mutable state of `simulation.py`'s `VirtualFarm`.  `soil_moisture`
is a vector of length `size` (`np.random.uniform(0.2, 0.5, size=(size,))`);
the `daily_logs` list is pure logging and is omitted. -/
structure SimFarm where
  size : ℕ
  simulation_days : ℕ
  day_counter : ℕ
  soil_moisture : List ℚ
  soil_N : ℚ
  soil_P : ℚ
  soil_K : ℚ
  pest_pressure : ℚ
  crop_growth_stage : ℚ
  water_used : ℚ
  fertilizer_applied : ℚ
  irrigation_applied : ℚ
deriving DecidableEq

/-- `VirtualFarm.__init__` of `simulation.py`: again no validation of any
argument.  `moisture_draws` are the `size_ha` uniform draws in `[0.2, 0.5]`
(the source always produces exactly `size_ha` of them). -/
def mkSimFarm (size_ha : ℕ) (simulation_days : ℕ) (moisture_draws : List ℚ) :
    SimFarm :=
  { size := size_ha
    simulation_days := simulation_days
    day_counter := 0
    soil_moisture := moisture_draws
    soil_N := 50
    soil_P := 30
    soil_K := 40
    pest_pressure := 1/10
    crop_growth_stage := 0
    water_used := 0
    fertilizer_applied := 0
    irrigation_applied := 0 }

/-- `VirtualFarm.simulate_day` of `simulation.py`.  Oracle draws: `evap`
is `np.random.uniform(0.01, 0.03)`, `rain` the categorical rainfall draw
from `{0, 0.01, 0.05, 0.1}`, `pestd` the `np.random.uniform(-0.01, 0.02)`
pest increment.  Returns the Python return value together with the updated
state; note the source performs the whole tick unconditionally before
evaluating the return condition. -/
def simulate_day (evap rain pestd : ℚ) (s : SimFarm) : Bool × SimFarm :=
  let avg_moisture := s.soil_moisture.sum / (s.soil_moisture.length : ℚ)
  let irrigation : ℚ := if avg_moisture < 1/4 then 1/20 else 0
  let sm1 := if avg_moisture < 1/4
    then s.soil_moisture.map (fun m => m + 1/20) else s.soil_moisture
  let irrigation_applied := s.irrigation_applied + irrigation * (s.size : ℚ)
  let water_used := s.water_used + irrigation * (s.size : ℚ)
  let sm2 := (sm1.map (fun m => m + rain - evap)).map (fun m => min 1 (max 0 m))
  let nutrient_uptake := 3/10 * s.crop_growth_stage
  let n1 := max 0 (s.soil_N - nutrient_uptake)
  let n2 := if n1 < 20 then n1 + 10 else n1
  let fertilizer_applied := if n1 < 20 then s.fertilizer_applied + 10
    else s.fertilizer_applied
  let p1 := min 1 (max 0 (s.pest_pressure + pestd))
  let growth_rate := avg_moisture * (4/10) + n2 / 100 * (3/10) + (1 - p1) * (3/10)
  let g := min 1 (s.crop_growth_stage + 1/100 * growth_rate)
  let dc := s.day_counter + 1
  (decide (g < 1 ∧ dc < s.simulation_days),
   { s with
     soil_moisture := sm2
     soil_N := n2
     pest_pressure := p1
     crop_growth_stage := g
     day_counter := dc
     water_used := water_used
     fertilizer_applied := fertilizer_applied
     irrigation_applied := irrigation_applied })

/-- `n` consecutive calls to `simulate_day`, the `k`-th call drawing
`(evaps k, rains k, pestds k)`. -/
def sim_run (evaps rains pestds : ℕ → ℚ) : ℕ → SimFarm → SimFarm
  | 0, s => s
  | n + 1, s =>
      (simulate_day (evaps n) (rains n) (pestds n)
        (sim_run evaps rains pestds n s)).2

/-! ## Weather generator (`app.py`) -/

/-- `np.round` to the nearest integer, ties to even (IEEE half-even, the
convention numpy uses). -/
def npRoundInt (x : ℚ) : ℤ :=
  if x - ⌊x⌋ < 1/2 then ⌊x⌋
  else if 1/2 < x - ⌊x⌋ then ⌊x⌋ + 1
  else if 2 ∣ ⌊x⌋ then ⌊x⌋ else ⌊x⌋ + 1

/-- `np.round(x, 1)`: one decimal place, ties to even. -/
def npRound1 (x : ℚ) : ℚ := (npRoundInt (x * 10) : ℚ) / 10

/-- `VirtualFarm.generate_weather_profile`, day `d` of the profile.
Oracle draws: `sins d` stands for `sin(2π·d/days)` (a value in `[-1, 1]`),
`weibs d` for the non-negative `np.random.weibull(0.8)` draw and `norms d`
for `np.random.normal(2, 0.5)`.  Note the source computes
evapotranspiration from the temperature before the wheat heat-wave shock
is added, and the wheat drought window re-clamps rainfall at 0. -/
def generate_weather_profile (crop : String) (sins weibs norms : ℕ → ℚ)
    (d : ℕ) : Weather :=
  let temp0 := 15 + 10 * sins d
  let rain0 := max 0 (5 * weibs d)
  let evapo := 1/2 * temp0 + norms d
  let temp1 := if crop = "wheat" ∧ 40 ≤ d ∧ d < 45 then temp0 + 8 else temp0
  let rain1 := if crop = "wheat" ∧ 60 ≤ d ∧ d < 80 then max 0 (rain0 - 7/10)
    else rain0
  { temperature := npRound1 temp1
    rainfall := npRound1 rain1
    evapotranspiration := npRound1 evapo }

/-! ## Basic facts about the embedding -/

theorem npRoundInt_nonneg {x : ℚ} (hx : 0 ≤ x) : 0 ≤ npRoundInt x := by
  have h0 : (0 : ℤ) ≤ ⌊x⌋ := by
    have := Int.floor_nonneg.mpr hx
    simpa using this
  unfold npRoundInt
  split_ifs <;> omega

theorem npRound1_nonneg {x : ℚ} (hx : 0 ≤ x) : 0 ≤ npRound1 x := by
  unfold npRound1
  have h10 : (0 : ℚ) ≤ x * 10 := by positivity
  have := npRoundInt_nonneg h10
  have hcast : (0 : ℚ) ≤ (npRoundInt (x * 10) : ℚ) := by exact_mod_cast this
  positivity

/-- The generated temperature is non-negative on every day (in fact at
least 5 before the shock), given only that the `sin` values lie in
`[-1, 1]`. -/
theorem generated_temperature_nonneg (crop : String) (sins weibs norms : ℕ → ℚ)
    (d : ℕ) (hs : -1 ≤ sins d) :
    0 ≤ (generate_weather_profile crop sins weibs norms d).temperature := by
  unfold generate_weather_profile
  simp only
  split_ifs with h
  · exact npRound1_nonneg (by nlinarith)
  · exact npRound1_nonneg (by nlinarith)

theorem usm_pest (w : Weather) (noise : ℚ) (s : FarmState) :
    (update_soil_moisture w noise s).pest_pressure = s.pest_pressure := rfl

theorem usm_growth (w : Weather) (noise : ℚ) (s : FarmState) :
    (update_soil_moisture w noise s).crop_growth_stage = s.crop_growth_stage := rfl

theorem usm_moisture_nonneg (w : Weather) (noise : ℚ) (s : FarmState) :
    0 ≤ (update_soil_moisture w noise s).soil_moisture.a ∧
    0 ≤ (update_soil_moisture w noise s).soil_moisture.b ∧
    0 ≤ (update_soil_moisture w noise s).soil_moisture.c := by
  refine ⟨?_, ?_, ?_⟩ <;> exact le_max_left 0 _

theorem ucg_pest (w : Weather) (s : FarmState) :
    (update_crop_growth w s).pest_pressure = s.pest_pressure := by
  unfold update_crop_growth
  dsimp only
  split_ifs <;> rfl

theorem upp_growth (w : Weather) (s : FarmState) :
    (update_pest_pressure w s).crop_growth_stage = s.crop_growth_stage := rfl

theorem ea_pest (d : Decisions) (s : FarmState) :
    (execute_actions d s).pest_pressure =
      if d.apply_pesticide then s.pest_pressure * (3/10) else s.pest_pressure := by
  unfold execute_actions
  dsimp only
  split_ifs <;> rfl

theorem ea_growth (d : Decisions) (s : FarmState) :
    (execute_actions d s).crop_growth_stage = s.crop_growth_stage := by
  unfold execute_actions
  dsimp only
  split_ifs <;> rfl

theorem ue_pest (s : FarmState) :
    (update_economics s).pest_pressure = s.pest_pressure := by
  unfold update_economics
  dsimp only
  split_ifs <;> rfl

theorem ue_growth (s : FarmState) :
    (update_economics s).crop_growth_stage = s.crop_growth_stage := by
  unfold update_economics
  dsimp only
  split_ifs <;> rfl

/-- After `update_soil_moisture` the three moisture components are
clamped at zero, so their mean is non-negative. -/
theorem usm_mean_nonneg (w : Weather) (noise : ℚ) (s : FarmState) :
    0 ≤ (update_soil_moisture w noise s).soil_moisture.mean := by
  obtain ⟨ha, hb, hc⟩ := usm_moisture_nonneg w noise s
  unfold Vec3.mean
  positivity

/-- `update_crop_growth` keeps the growth stage in `[0, 1]` provided the
day's temperature and the current moisture mean are non-negative. -/
theorem ucg_growth_bounds (w : Weather) (s : FarmState)
    (hT : 0 ≤ w.temperature) (hm : 0 ≤ s.soil_moisture.mean)
    (hg0 : 0 ≤ s.crop_growth_stage) :
    0 ≤ (update_crop_growth w s).crop_growth_stage ∧
      (update_crop_growth w s).crop_growth_stage ≤ 1 := by
  have hmin : 0 ≤ min w.temperature 30 := le_min hT (by norm_num)
  have hprod : 0 ≤ min w.temperature 30 * s.soil_moisture.mean :=
    mul_nonneg hmin hm
  unfold update_crop_growth
  dsimp only
  constructor
  · split_ifs <;>
      · simp only
        exact le_min (by norm_num) (by nlinarith [hprod, hg0])
  · split_ifs <;>
      · simp only
        exact min_le_left _ _

/-- `update_pest_pressure` keeps the pest pressure in `[0, 1]` (indeed
`[0, 0.95]`) provided the day's temperature is non-negative. -/
theorem upp_pest_bounds (w : Weather) (s : FarmState)
    (hT : 0 ≤ w.temperature) (hp0 : 0 ≤ s.pest_pressure) :
    0 ≤ (update_pest_pressure w s).pest_pressure ∧
      (update_pest_pressure w s).pest_pressure ≤ 1 := by
  unfold update_pest_pressure
  dsimp only
  have hhf : 0 ≤ 1 + (if 5 < w.rainfall then (1:ℚ) else 0) * (3/10) := by
    split_ifs <;> norm_num
  have hmul : 0 ≤ s.pest_pressure * (1 + 5/100 * w.temperature / 25) *
      (1 + (if 5 < w.rainfall then (1:ℚ) else 0) * (3/10)) := by
    apply mul_nonneg (mul_nonneg hp0 (by nlinarith [hT])) hhf
  have h0 : 0 ≤ min 1 (s.pest_pressure * (1 + 5/100 * w.temperature / 25) *
      (1 + (if 5 < w.rainfall then (1:ℚ) else 0) * (3/10))) :=
    le_min (by norm_num) hmul
  have h1 : min 1 (s.pest_pressure * (1 + 5/100 * w.temperature / 25) *
      (1 + (if 5 < w.rainfall then (1:ℚ) else 0) * (3/10))) ≤ 1 :=
    min_le_left _ _
  constructor
  · nlinarith [h0]
  · nlinarith [h0, h1]

/-- `execute_actions` keeps the pest pressure inside `[0, 1]`: the only
write to it is the pesticide multiplication by `0.3`. -/
theorem ea_pest_bounds (d : Decisions) (s : FarmState)
    (hp0 : 0 ≤ s.pest_pressure) (hp1 : s.pest_pressure ≤ 1) :
    0 ≤ (execute_actions d s).pest_pressure ∧
      (execute_actions d s).pest_pressure ≤ 1 := by
  rw [ea_pest]
  split_ifs <;> constructor <;> nlinarith [hp0, hp1]

/-- One `advance_day` call preserves the `[0, 1]` bounds on both
`pest_pressure` and `crop_growth_stage`, for any sensor observation and
any moisture-noise draw, provided the day's temperature is
non-negative. -/
theorem advance_day_bounds (wf : ℕ → Weather) (noise : ℚ)
    (sensor : SensorData) (s : FarmState)
    (hT : 0 ≤ (wf s.day_counter).temperature)
    (hp0 : 0 ≤ s.pest_pressure) (hp1 : s.pest_pressure ≤ 1)
    (hg0 : 0 ≤ s.crop_growth_stage) (hg1 : s.crop_growth_stage ≤ 1) :
    (0 ≤ ((advance_day wf noise sensor s).2).pest_pressure ∧
      ((advance_day wf noise sensor s).2).pest_pressure ≤ 1) ∧
    (0 ≤ ((advance_day wf noise sensor s).2).crop_growth_stage ∧
      ((advance_day wf noise sensor s).2).crop_growth_stage ≤ 1) := by
  unfold advance_day
  split
  · exact ⟨⟨hp0, hp1⟩, hg0, hg1⟩
  · dsimp only
    set w := wf s.day_counter with hw
    set s1 := update_soil_moisture w noise s with hs1
    set s2 := update_crop_growth w s1 with hs2
    set s3 := update_pest_pressure w s2 with hs3
    set d := decision_engine s3 sensor w with hd
    set s4 := execute_actions d s3 with hs4
    have hg2 : 0 ≤ s2.crop_growth_stage ∧ s2.crop_growth_stage ≤ 1 := by
      rw [hs2]
      exact ucg_growth_bounds w s1 hT (usm_mean_nonneg w noise s)
        (by rw [hs1, usm_growth]; exact hg0)
    have hp3 : 0 ≤ s3.pest_pressure ∧ s3.pest_pressure ≤ 1 := by
      rw [hs3]
      exact upp_pest_bounds w s2 hT
        (by rw [hs2, ucg_pest, hs1, usm_pest]; exact hp0)
    have hp4 : 0 ≤ s4.pest_pressure ∧ s4.pest_pressure ≤ 1 := by
      rw [hs4]
      exact ea_pest_bounds d s3 hp3.1 hp3.2
    constructor
    · simpa [ue_pest] using hp4
    · have : s4.crop_growth_stage = s2.crop_growth_stage := by
        rw [hs4, ea_growth, hs3, upp_growth]
      simpa [ue_growth, this] using hg2

/-- One `simulate_day` call of the simpler engine keeps pest pressure,
growth stage and every moisture component inside `[0, 1]`, for arbitrary
draws, provided the incoming moisture components are non-negative and the
incoming growth stage is non-negative. -/
theorem simulate_day_bounds (evap rain pestd : ℚ) (s : SimFarm)
    (hm : ∀ m ∈ s.soil_moisture, 0 ≤ m) (hg0 : 0 ≤ s.crop_growth_stage) :
    (0 ≤ ((simulate_day evap rain pestd s).2).pest_pressure ∧
      ((simulate_day evap rain pestd s).2).pest_pressure ≤ 1) ∧
    (0 ≤ ((simulate_day evap rain pestd s).2).crop_growth_stage ∧
      ((simulate_day evap rain pestd s).2).crop_growth_stage ≤ 1) ∧
    (∀ m ∈ ((simulate_day evap rain pestd s).2).soil_moisture,
      0 ≤ m ∧ m ≤ 1) := by
  have havg : 0 ≤ s.soil_moisture.sum / (s.soil_moisture.length : ℚ) := by
    apply div_nonneg (List.sum_nonneg hm) (by positivity)
  unfold simulate_day
  dsimp only
  refine ⟨⟨le_min (by norm_num) (le_max_left 0 _), min_le_left _ _⟩, ?_, ?_⟩
  · have hp1 : min 1 (max 0 (s.pest_pressure + pestd)) ≤ 1 := min_le_left _ _
    constructor
    · apply le_min (by norm_num)
      have hn2 : (0:ℚ) ≤ (if max 0 (s.soil_N - 3/10 * s.crop_growth_stage) < 20
          then max 0 (s.soil_N - 3/10 * s.crop_growth_stage) + 10
          else max 0 (s.soil_N - 3/10 * s.crop_growth_stage)) := by
        split_ifs <;> nlinarith [le_max_left (0:ℚ) (s.soil_N - 3/10 * s.crop_growth_stage)]
      nlinarith [havg, hp1, hn2, hg0]
    · exact min_le_left _ _
  · intro m hmem
    simp only [List.mem_map] at hmem
    obtain ⟨x, _, hx⟩ := hmem
    subst hx
    exact ⟨le_min (by norm_num) (le_max_left 0 _), min_le_left _ _⟩

/-- One `advance_day` call keeps a zero pest pressure at exactly zero:
every update of `pest_pressure` in `app.py` is multiplicative. -/
theorem advance_day_pest_zero (wf : ℕ → Weather) (noise : ℚ)
    (sensor : SensorData) (s : FarmState) (h : s.pest_pressure = 0) :
    ((advance_day wf noise sensor s).2).pest_pressure = 0 := by
  unfold advance_day
  split
  · exact h
  · simp only [update_pest_pressure, ue_pest, ea_pest, ucg_pest, usm_pest, h,
      zero_mul, min_eq_right (by norm_num : (0:ℚ) ≤ 1)]
    split <;> norm_num

theorem usm_day (w : Weather) (noise : ℚ) (s : FarmState) :
    (update_soil_moisture w noise s).day_counter = s.day_counter := rfl

theorem usm_irr (w : Weather) (noise : ℚ) (s : FarmState) :
    (update_soil_moisture w noise s).irrigation_applied = s.irrigation_applied := rfl

theorem usm_fert (w : Weather) (noise : ℚ) (s : FarmState) :
    (update_soil_moisture w noise s).fertilizer_applied = s.fertilizer_applied := rfl

theorem usm_water (w : Weather) (noise : ℚ) (s : FarmState) :
    (update_soil_moisture w noise s).water_used =
      s.water_used + (7/10 * w.evapotranspiration + noise) := rfl

theorem ucg_day (w : Weather) (s : FarmState) :
    (update_crop_growth w s).day_counter = s.day_counter := by
  unfold update_crop_growth; dsimp only; split_ifs <;> rfl

theorem ucg_irr (w : Weather) (s : FarmState) :
    (update_crop_growth w s).irrigation_applied = s.irrigation_applied := by
  unfold update_crop_growth; dsimp only; split_ifs <;> rfl

theorem ucg_fert (w : Weather) (s : FarmState) :
    (update_crop_growth w s).fertilizer_applied = s.fertilizer_applied := by
  unfold update_crop_growth; dsimp only; split_ifs <;> rfl

theorem ucg_water (w : Weather) (s : FarmState) :
    (update_crop_growth w s).water_used = s.water_used := by
  unfold update_crop_growth; dsimp only; split_ifs <;> rfl

theorem upp_day (w : Weather) (s : FarmState) :
    (update_pest_pressure w s).day_counter = s.day_counter := rfl

theorem upp_irr (w : Weather) (s : FarmState) :
    (update_pest_pressure w s).irrigation_applied = s.irrigation_applied := rfl

theorem upp_fert (w : Weather) (s : FarmState) :
    (update_pest_pressure w s).fertilizer_applied = s.fertilizer_applied := rfl

theorem upp_water (w : Weather) (s : FarmState) :
    (update_pest_pressure w s).water_used = s.water_used := rfl

theorem ea_day (d : Decisions) (s : FarmState) :
    (execute_actions d s).day_counter = s.day_counter := by
  unfold execute_actions; dsimp only; split_ifs <;> rfl

theorem ea_irr (d : Decisions) (s : FarmState) :
    (execute_actions d s).irrigation_applied =
      if d.irrigate then s.irrigation_applied + d.irrigation_amount
      else s.irrigation_applied := by
  unfold execute_actions; dsimp only; split_ifs <;> rfl

theorem ea_fert (d : Decisions) (s : FarmState) :
    (execute_actions d s).fertilizer_applied =
      if d.fertilize then s.fertilizer_applied + d.fertilizer_amount
      else s.fertilizer_applied := by
  unfold execute_actions; dsimp only; split_ifs <;> rfl

theorem ea_water (d : Decisions) (s : FarmState) :
    (execute_actions d s).water_used =
      if d.irrigate then s.water_used + d.irrigation_amount
      else s.water_used := by
  unfold execute_actions; dsimp only; split_ifs <;> rfl

theorem ue_day (s : FarmState) :
    (update_economics s).day_counter = s.day_counter := by
  unfold update_economics; dsimp only; split_ifs <;> rfl

theorem ue_irr (s : FarmState) :
    (update_economics s).irrigation_applied = s.irrigation_applied := by
  unfold update_economics; dsimp only; split_ifs <;> rfl

theorem ue_fert (s : FarmState) :
    (update_economics s).fertilizer_applied = s.fertilizer_applied := by
  unfold update_economics; dsimp only; split_ifs <;> rfl

theorem ue_water (s : FarmState) :
    (update_economics s).water_used = s.water_used := by
  unfold update_economics; dsimp only; split_ifs <;> rfl

/-- Both amounts produced by the decision engine are non-negative, for any
sensor observation whatsoever. -/
theorem de_amounts_nonneg (s : FarmState) (sensor : SensorData) (w : Weather) :
    0 ≤ (decision_engine s sensor w).irrigation_amount ∧
      0 ≤ (decision_engine s sensor w).fertilizer_amount := by
  unfold decision_engine
  dsimp only
  constructor
  · split_ifs
    · exact le_min (by positivity) (by norm_num)
    · norm_num
  · split_ifs
    · exact le_min (by positivity) (by norm_num)
    · norm_num

/-- The `[0, 1]` bounds on pest pressure and growth stage hold after any
number of `advance_day` ticks from any state satisfying them, provided
every day's temperature is non-negative. -/
theorem run_days_bounds (wf : ℕ → Weather) (noises : ℕ → ℚ)
    (sensors : ℕ → SensorData) (s : FarmState)
    (hT : ∀ d, 0 ≤ (wf d).temperature)
    (hp0 : 0 ≤ s.pest_pressure) (hp1 : s.pest_pressure ≤ 1)
    (hg0 : 0 ≤ s.crop_growth_stage) (hg1 : s.crop_growth_stage ≤ 1) (n : ℕ) :
    (0 ≤ (run_days wf noises sensors n s).pest_pressure ∧
      (run_days wf noises sensors n s).pest_pressure ≤ 1) ∧
    (0 ≤ (run_days wf noises sensors n s).crop_growth_stage ∧
      (run_days wf noises sensors n s).crop_growth_stage ≤ 1) := by
  induction n with
  | zero => exact ⟨⟨hp0, hp1⟩, hg0, hg1⟩
  | succ n ih =>
      obtain ⟨⟨p0, p1⟩, g0, g1⟩ := ih
      exact advance_day_bounds wf (noises n) (sensors n)
        (run_days wf noises sensors n s) (hT _) p0 p1 g0 g1

/-- The `[0, 1]` bounds hold after any number of `simulate_day` ticks of
the simpler engine, from any state whose moisture components are
non-negative, whose growth stage is in `[0, 1]` and whose pest pressure is
in `[0, 1]`. -/
theorem sim_run_bounds (evaps rains pestds : ℕ → ℚ) (s : SimFarm)
    (hm : ∀ m ∈ s.soil_moisture, 0 ≤ m)
    (hp0 : 0 ≤ s.pest_pressure) (hp1 : s.pest_pressure ≤ 1)
    (hg0 : 0 ≤ s.crop_growth_stage) (hg1 : s.crop_growth_stage ≤ 1) (n : ℕ) :
    (0 ≤ (sim_run evaps rains pestds n s).pest_pressure ∧
      (sim_run evaps rains pestds n s).pest_pressure ≤ 1) ∧
    (0 ≤ (sim_run evaps rains pestds n s).crop_growth_stage ∧
      (sim_run evaps rains pestds n s).crop_growth_stage ≤ 1) ∧
    (∀ m ∈ (sim_run evaps rains pestds n s).soil_moisture, 0 ≤ m) := by
  induction n with
  | zero => exact ⟨⟨hp0, hp1⟩, ⟨hg0, hg1⟩, hm⟩
  | succ n ih =>
      obtain ⟨_, ⟨g0, _⟩, hmn⟩ := ih
      obtain ⟨hp, hg, hmm⟩ := simulate_day_bounds (evaps n) (rains n) (pestds n)
        (sim_run evaps rains pestds n s) hmn g0
      exact ⟨hp, hg, fun m hmem => (hmm m hmem).1⟩

/-! ## Claim theorems -/

/-- C10: in the weather-driven engine `pest_pressure` is initialised to
exactly 0 and every per-tick write multiplies it by some factor, so the
true pest pressure is exactly 0 after every number of ticks, for every
weather profile, every noise stream and every sensor-observation stream
(hence for every random seed). -/
theorem spec_c10_pest_stays_zero (crop soil : String) (size_ha : ℚ)
    (days : ℕ) (v : Vec3) (wf : ℕ → Weather) (noises : ℕ → ℚ)
    (sensors : ℕ → SensorData) (n : ℕ) :
    (run_days wf noises sensors n
      (mkVirtualFarm size_ha crop soil days v)).pest_pressure = 0 := by
  induction n with
  | zero => rfl
  | succ n ih => exact advance_day_pest_zero wf (noises n) (sensors n) _ ih

/-- C8: `calculate_roi` returns `netBenefit/totalCost×100` whenever the
total cost is positive, and exactly 0 when the total cost is 0; no
division is attempted in the zero case. -/
theorem spec_c8_roi (s : FarmState) :
    (total_cost s = 0 → calculate_roi s = 0) ∧
    (0 < total_cost s →
      calculate_roi s = (s.revenue - total_cost s) / total_cost s * 100) := by
  constructor
  · intro h
    unfold calculate_roi
    rw [h]
    norm_num
  · intro h
    unfold calculate_roi
    rw [if_pos h]

/-- A farm state with a positive accumulated cost, used to exercise the
positive branch of `calculate_roi`. -/
def costlyFarm : FarmState :=
  { mkVirtualFarm 10 "wheat" "loam" 2 ⟨25, 25, 25⟩ with
    cost_labor := 1, revenue := 10 }

/-- Witness for C8: a freshly constructed farm has `total_cost = 0` and
ROI exactly 0; `costlyFarm` has `total_cost = 2 > 0` and ROI
`(10 - 2)/2 × 100`. -/
theorem spec_c8_roi_witness :
    calculate_roi (mkVirtualFarm 10 "wheat" "loam" 120 ⟨25, 25, 25⟩) = 0 ∧
    calculate_roi costlyFarm =
      (costlyFarm.revenue - total_cost costlyFarm) / total_cost costlyFarm * 100 :=
  ⟨(spec_c8_roi _).1 (by norm_num [total_cost, mkVirtualFarm]),
   (spec_c8_roi _).2 (by norm_num [total_cost, costlyFarm, mkVirtualFarm])⟩

/-- C4 (evidence for the code bug): both constructors are total — no
configuration validation exists in the source.  A farm with negative size,
unknown crop type and zero duration is constructed without any error. -/
theorem spec_c4_no_validation :
    (mkVirtualFarm (-5) "banana" "loam" 0 ⟨20, 20, 20⟩).size = -5 ∧
    (mkVirtualFarm (-5) "banana" "loam" 0 ⟨20, 20, 20⟩).crop = "banana" ∧
    (mkVirtualFarm (-5) "banana" "loam" 0 ⟨20, 20, 20⟩).days = 0 ∧
    (mkSimFarm 0 0 []).size = 0 ∧ (mkSimFarm 0 0 []).simulation_days = 0 :=
  ⟨rfl, rfl, rfl, rfl, rfl⟩

/-- The operational soil-moisture node at depth 0.1 used to exhibit the
depth-band indexing bug of `SensorNode.measure`. -/
def shallowNode : SensorNode :=
  { node_id := 0, stype := SType.soilMoisture, pos_x := 0, pos_y := 0,
    depth := 1/10, battery := 100, operational := true }

/-- C5 (evidence for the code bug): the index
`int(position[2]*10) // 10 - 1` evaluates to `-1` for every depth in the
fixed set `{0.1, 0.3, 0.6}`, so an operational soil-moisture node always
reads the last component of the moisture vector instead of the band
matching its own depth: with `soil_moisture = (10, 20, 30)`, a depth-0.1
node with zero noise measures 30, not 10.  A non-operational node does
return `None`. -/
theorem spec_c5_depth_band_bug :
    sm_index (1/10) = -1 ∧ sm_index (3/10) = -1 ∧ sm_index (6/10) = -1 ∧
    (measure ⟨10, 20, 30⟩ 50 0 (1/10) (1/2) 0 shallowNode).1 = some 30 ∧
    (10 : ℚ) ≠ 30 ∧
    (measure ⟨10, 20, 30⟩ 50 0 (1/10) (1/2) 0
      { shallowNode with operational := false }).1 = none := by
  have hidx : sm_index ((1:ℚ)/10) = -1 := by
    norm_num [sm_index, pyInt]
    decide
  refine ⟨hidx, ?_, ?_, ?_, by norm_num, ?_⟩
  · norm_num [sm_index, pyInt]
    decide
  · norm_num [sm_index, pyInt]
    decide
  · norm_num [measure, shallowNode, hidx, pyIndex3]
  · norm_num [measure, shallowNode]

/-- C6 counterexample: at farm size 1 the network has
`int(1 × 1.5) = 1` node, not `round(1 × 1.5) = 2` — the source truncates
instead of rounding.  (For this instance the concrete draw functions are
irrelevant and fixed arbitrarily.) -/
theorem spec_c6_counterexample :
    ((initialize_network 1 (fun _ => 1/10) (fun _ => 0) (fun _ => 0)).length : ℤ) ≠
      round ((1 : ℚ) * (15/10)) := by
  have hlen : (initialize_network 1 (fun _ => 1/10) (fun _ => 0)
      (fun _ => 0)).length = 1 := by
    unfold initialize_network node_count pyInt
    norm_num
  rw [hlen]
  norm_num [round_eq]

/-- C6 amended: `initialize_network(farmSize)` creates exactly
`int(farmSize × 1.5)` nodes (truncation toward zero, not rounding), and
node `i` carries sensor type `['soil_moisture', 'nutrient', 'pest'][i % 3]`
in a fixed round-robin, the `i`-th depth draw, the `i`-th position draws,
full battery, and is operational. -/
theorem spec_c6_node_count (size : ℚ) (depths xs ys : ℕ → ℚ) :
    (initialize_network size depths xs ys).length = node_count size ∧
    ∀ i : ℕ, i < node_count size →
      (initialize_network size depths xs ys)[i]? =
        some { node_id := i, stype := type_cycle i, pos_x := xs i,
               pos_y := ys i, depth := depths i, battery := 100,
               operational := true } := by
  constructor
  · simp [initialize_network]
  · intro i hi
    unfold initialize_network
    rw [List.getElem?_map, List.getElem?_range hi]
    rfl

/-- Witness for C6 amended: at farm size 2 there are
`int(2 × 1.5) = 3` nodes and node 1 is a nutrient sensor. -/
theorem spec_c6_node_count_witness :
    (initialize_network 2 (fun _ => 3/10) (fun _ => 0) (fun _ => 0)).length =
      node_count 2 ∧
    (initialize_network 2 (fun _ => 3/10) (fun _ => 0) (fun _ => 0))[1]? =
      some { node_id := 1, stype := SType.nutrient, pos_x := 0, pos_y := 0,
             depth := 3/10, battery := 100, operational := true } := by
  refine ⟨(spec_c6_node_count 2 _ _ _).1, ?_⟩
  exact (spec_c6_node_count 2 (fun _ => 3/10) (fun _ => 0) (fun _ => 0)).2 1
    (by unfold node_count pyInt; norm_num)

/-- C9 counterexample: a farm of size 0.5 initialises an empty sensor
network (`int(0.5 × 1.5) = 0` nodes) and `calculate_uptime` then divides
by `len(self.nodes) = 0`: it raises `ZeroDivisionError` (modelled `none`)
rather than returning a value in `[0, 100]`. -/
theorem spec_c9_counterexample :
    initialize_network (1/2) (fun _ => 1/10) (fun _ => 0) (fun _ => 0) = [] ∧
    calculate_uptime
      (initialize_network (1/2) (fun _ => 1/10) (fun _ => 0) (fun _ => 0)) =
        none := by
  have hempty : initialize_network (1/2) (fun _ => 1/10) (fun _ => 0)
      (fun _ => 0) = [] := by
    unfold initialize_network node_count pyInt
    norm_num
  exact ⟨hempty, by rw [hempty]; rfl⟩

/-- C9 amended: on every non-empty node list — in particular every network
initialised from a farm size with `int(size × 1.5) ≥ 1` — `calculate_uptime`
returns a defined value lying in `[0, 100]`. -/
theorem spec_c9_uptime_bounds (nodes : List SensorNode) (h : nodes ≠ []) :
    ∃ u, calculate_uptime nodes = some u ∧ 0 ≤ u ∧ u ≤ 100 := by
  have hlen : nodes.length ≠ 0 := fun hc => h (List.length_eq_zero.mp hc)
  have hpos : (0 : ℚ) < (nodes.length : ℚ) := by
    have := Nat.pos_of_ne_zero hlen
    exact_mod_cast this
  refine ⟨((nodes.countP (fun n => n.operational)) : ℚ) / (nodes.length : ℚ) * 100,
    ?_, ?_, ?_⟩
  · unfold calculate_uptime
    rw [if_neg hlen]
  · positivity
  · have hcount : ((nodes.countP (fun n => n.operational)) : ℚ) ≤ (nodes.length : ℚ) := by
      exact_mod_cast List.countP_le_length _
    have hdiv : ((nodes.countP (fun n => n.operational)) : ℚ) / (nodes.length : ℚ) ≤ 1 :=
      (div_le_one hpos).mpr hcount
    nlinarith [hdiv]

/-- Witness for C9 amended: a two-node network with one operational node
has uptime `some u` with `u ∈ [0, 100]` (concretely 50). -/
theorem spec_c9_uptime_bounds_witness :
    ∃ u, calculate_uptime
      [{ node_id := 0, stype := SType.soilMoisture, pos_x := 0, pos_y := 0,
         depth := 1/10, battery := 100, operational := true },
       { node_id := 1, stype := SType.nutrient, pos_x := 0, pos_y := 0,
         depth := 3/10, battery := 100, operational := false }] = some u ∧
      0 ≤ u ∧ u ≤ 100 :=
  spec_c9_uptime_bounds _ (by simp)

/-- A farm one tick short of maturity: growth stage 0.949, ample uniform
moisture 30, so a mild day (20°) pushes the stage past 0.95. -/
def matureFarm : FarmState :=
  { mkVirtualFarm 1 "wheat" "loam" 120 ⟨30, 30, 30⟩ with
    crop_growth_stage := 949/1000 }

/-- `matureFarm` after the maturity-crossing tick at 20°: stage 0.954…,
yield set to 1 × 5000 × 1 = 5000. -/
def maturedFarm : FarmState := update_crop_growth ⟨20, 0, 0⟩ matureFarm

/-- C7 counterexample: the yield assignment re-triggers after first
maturity.  `maturedFarm` crossed 0.95 at 20° and got `yield_kg = 5000`;
one further tick at 40° recomputes `yield_kg` to
`1 × 5000 × (1 − 10/20) = 2500 ≠ 5000`, because the source has no guard —
the `if self.crop_growth_stage >= 0.95` branch runs on every tick past
maturity with that day's temperature. -/
theorem spec_c7_counterexample :
    maturedFarm.yield_kg = 5000 ∧
    95/100 ≤ maturedFarm.crop_growth_stage ∧
    (update_crop_growth ⟨40, 0, 0⟩ maturedFarm).yield_kg = 2500 ∧
    (update_crop_growth ⟨40, 0, 0⟩ maturedFarm).yield_kg ≠
      maturedFarm.yield_kg := by
  refine ⟨?_, ?_, ?_, ?_⟩ <;>
    norm_num [maturedFarm, matureFarm, update_crop_growth, mkVirtualFarm,
      Vec3.mean, min_def, max_def]

/-- C7 amended: on any tick after which the growth stage is at least 0.95
(first maturity or any later tick), `update_crop_growth` assigns
`yield_kg = size × 5000 × (1 − max(0, temperature − 30)/20)` from that
day's temperature — the computation is repeated, not one-time. -/
theorem spec_c7_yield_recomputed (w : Weather) (s : FarmState)
    (h : 95/100 ≤ (update_crop_growth w s).crop_growth_stage) :
    (update_crop_growth w s).yield_kg =
      s.size * 5000 * (1 - max 0 (w.temperature - 30) / 20) := by
  unfold update_crop_growth at h ⊢
  dsimp only at h ⊢
  split_ifs at h ⊢ <;> first | rfl | exact absurd h (by assumption)

/-- Witness for C7 amended: the 40° tick on `maturedFarm` satisfies the
maturity hypothesis and yields `size × 5000 × (1 − 10/20)`. -/
theorem spec_c7_yield_recomputed_witness :
    (update_crop_growth ⟨40, 0, 0⟩ maturedFarm).yield_kg =
      maturedFarm.size * 5000 *
        (1 - max 0 ((40 : ℚ) - 30) / 20) :=
  spec_c7_yield_recomputed ⟨40, 0, 0⟩ maturedFarm
    (by norm_num [maturedFarm, matureFarm, update_crop_growth, mkVirtualFarm,
      Vec3.mean, min_def, max_def])

theorem usm_days (w : Weather) (noise : ℚ) (s : FarmState) :
    (update_soil_moisture w noise s).days = s.days := rfl

theorem ucg_days (w : Weather) (s : FarmState) :
    (update_crop_growth w s).days = s.days := by
  unfold update_crop_growth; dsimp only; split_ifs <;> rfl

theorem upp_days (w : Weather) (s : FarmState) :
    (update_pest_pressure w s).days = s.days := rfl

theorem ea_days (d : Decisions) (s : FarmState) :
    (execute_actions d s).days = s.days := by
  unfold execute_actions; dsimp only; split_ifs <;> rfl

theorem ue_days (s : FarmState) :
    (update_economics s).days = s.days := by
  unfold update_economics; dsimp only; split_ifs <;> rfl

/-- The day counter after one `advance_day`: unchanged when the run is
already terminal, incremented by exactly one otherwise. -/
theorem advance_day_counter (wf : ℕ → Weather) (noise : ℚ)
    (sensor : SensorData) (s : FarmState) :
    (advance_day wf noise sensor s).2.day_counter =
      if s.days ≤ s.day_counter then s.day_counter else s.day_counter + 1 := by
  unfold advance_day
  dsimp only
  split_ifs with h
  · rfl
  · rw [ue_day, ea_day, upp_day, ucg_day, usm_day]

/-- The horizon field `days` is never written by `advance_day`. -/
theorem advance_day_days (wf : ℕ → Weather) (noise : ℚ)
    (sensor : SensorData) (s : FarmState) :
    (advance_day wf noise sensor s).2.days = s.days := by
  unfold advance_day
  dsimp only
  split_ifs with h
  · rfl
  · rw [ue_days, ea_days, upp_days, ucg_days, usm_days]

/-- `advance_day` reports `true` exactly on non-terminal states. -/
theorem advance_day_fst (wf : ℕ → Weather) (noise : ℚ)
    (sensor : SensorData) (s : FarmState) :
    ((advance_day wf noise sensor s).1 = true) ↔ s.day_counter < s.days := by
  unfold advance_day
  split_ifs with h <;> simp <;> omega

/-- On a terminal state, `advance_day` is the identity: it returns
`(false, s)` without touching any field. -/
theorem advance_day_terminal (wf : ℕ → Weather) (noise : ℚ)
    (sensor : SensorData) (s : FarmState) (h : s.days ≤ s.day_counter) :
    advance_day wf noise sensor s = (false, s) := by
  unfold advance_day
  rw [if_pos h]

/-- The invariant `day_counter ≤ days` is preserved by any run. -/
theorem run_days_counter_le (wf : ℕ → Weather) (noises : ℕ → ℚ)
    (sensors : ℕ → SensorData) (s : FarmState)
    (h : s.day_counter ≤ s.days) (n : ℕ) :
    (run_days wf noises sensors n s).day_counter ≤
      (run_days wf noises sensors n s).days := by
  induction n with
  | zero => exact h
  | succ n ih =>
      show (advance_day wf (noises n) (sensors n)
          (run_days wf noises sensors n s)).2.day_counter ≤
        (advance_day wf (noises n) (sensors n)
          (run_days wf noises sensors n s)).2.days
      rw [advance_day_counter, advance_day_days]
      split_ifs with hc <;> omega

/-- The horizon field `days` is constant along every run. -/
theorem run_days_days (wf : ℕ → Weather) (noises : ℕ → ℚ)
    (sensors : ℕ → SensorData) (s : FarmState) (n : ℕ) :
    (run_days wf noises sensors n s).days = s.days := by
  induction n with
  | zero => rfl
  | succ n ih =>
      show (advance_day wf (noises n) (sensors n)
        (run_days wf noises sensors n s)).2.days = s.days
      rw [advance_day_days, ih]

/-- C1 (amended): in the weather-driven engine, `advance_day` returns
`false` exactly when `day_counter = simulationDays` (on reachable states,
which always satisfy `day_counter ≤ simulationDays`), a terminal call
returns the state completely unchanged, and a non-terminal call ticks once
and returns `true`.  In the simpler variant, however, *every* call —
including one made at the terminal state — performs a full tick
(incrementing `day_counter`), and only the returned flag
(`growth < 1 and day_counter < simulationDays`, evaluated after the tick)
is false at the end: the simpler variant is not idempotent at the terminal
state. -/
theorem spec_c1_terminal_behavior :
    (∀ (wf : ℕ → Weather) (noise : ℚ) (sensor : SensorData) (s : FarmState),
        s.day_counter ≤ s.days →
        (((advance_day wf noise sensor s).1 = false) ↔
          s.day_counter = s.days)) ∧
    (∀ (wf : ℕ → Weather) (noise : ℚ) (sensor : SensorData) (s : FarmState),
        s.days ≤ s.day_counter → advance_day wf noise sensor s = (false, s)) ∧
    (∀ (wf : ℕ → Weather) (noise : ℚ) (sensor : SensorData) (s : FarmState),
        s.day_counter < s.days →
        (advance_day wf noise sensor s).1 = true ∧
        (advance_day wf noise sensor s).2.day_counter = s.day_counter + 1) ∧
    (∀ (crop soil : String) (size_ha : ℚ) (days : ℕ) (v : Vec3)
        (wf : ℕ → Weather) (noises : ℕ → ℚ) (sensors : ℕ → SensorData) (n : ℕ),
        (run_days wf noises sensors n
          (mkVirtualFarm size_ha crop soil days v)).day_counter ≤ days) ∧
    (∀ (evap rain pestd : ℚ) (t : SimFarm),
        (simulate_day evap rain pestd t).2.day_counter = t.day_counter + 1 ∧
        ((simulate_day evap rain pestd t).1 = true ↔
          ((simulate_day evap rain pestd t).2.crop_growth_stage < 1 ∧
            (simulate_day evap rain pestd t).2.day_counter <
              t.simulation_days))) := by
  refine ⟨?_, ?_, ?_, ?_, ?_⟩
  · intro wf noise sensor s h
    rw [show ((advance_day wf noise sensor s).1 = false) ↔
        ¬((advance_day wf noise sensor s).1 = true) by simp]
    rw [advance_day_fst]
    omega
  · intro wf noise sensor s h
    exact advance_day_terminal wf noise sensor s h
  · intro wf noise sensor s h
    refine ⟨(advance_day_fst wf noise sensor s).mpr h, ?_⟩
    rw [advance_day_counter, if_neg (by omega)]
  · intro crop soil size_ha days v wf noises sensors n
    have hle := run_days_counter_le wf noises sensors
      (mkVirtualFarm size_ha crop soil days v) (Nat.zero_le _) n
    rw [run_days_days] at hle
    exact hle
  · intro evap rain pestd t
    constructor
    · rfl
    · unfold simulate_day
      dsimp only
      rw [decide_eq_true_eq]

/-- A terminal state of the simpler engine: one hectare, horizon one day,
`day_counter` already equal to `simulation_days`. -/
def simTerminal : SimFarm := { mkSimFarm 1 1 [1/2] with day_counter := 1 }

/-- C1 counterexample: at the terminal state of the simpler engine
(`day_counter = simulationDays = 1`) a further `simulate_day` call still
returns `false` but mutates the state — `day_counter` advances to 2 — so
the claimed idempotence at the terminal state fails for that variant. -/
theorem spec_c1_counterexample :
    simTerminal.day_counter = simTerminal.simulation_days ∧
    (simulate_day (1/50) 0 0 simTerminal).1 = false ∧
    (simulate_day (1/50) 0 0 simTerminal).2.day_counter ≠
      simTerminal.day_counter := by
  refine ⟨rfl, ?_, ?_⟩
  · unfold simulate_day
    dsimp only
    rw [decide_eq_false_iff_not]
    norm_num [simTerminal, mkSimFarm]
  · norm_num [simulate_day, simTerminal, mkSimFarm]

/-- Witness for C1: a freshly constructed 120-day farm satisfies
`day_counter ≤ days`, and the first conjunct instantiates to it. -/
theorem spec_c1_terminal_behavior_witness :
    ((advance_day (fun _ => ⟨20, 0, 4⟩) 0 ⟨25, 0, 40, 0⟩
        (mkVirtualFarm 10 "wheat" "loam" 120 ⟨25, 25, 25⟩)).1 = false) ↔
      (mkVirtualFarm 10 "wheat" "loam" 120 ⟨25, 25, 25⟩).day_counter =
        (mkVirtualFarm 10 "wheat" "loam" 120 ⟨25, 25, 25⟩).days :=
  spec_c1_terminal_behavior.1 _ _ _ _ (by norm_num [mkVirtualFarm])

/-- `irrigation_applied` and `fertilizer_applied` never decrease across a
tick, for every draw and every sensor observation: each is only ever
incremented by a decision amount, and both decision amounts are
non-negative. -/
theorem advance_day_counters_mono (wf : ℕ → Weather) (noise : ℚ)
    (sensor : SensorData) (s : FarmState) :
    s.irrigation_applied ≤ (advance_day wf noise sensor s).2.irrigation_applied ∧
    s.fertilizer_applied ≤ (advance_day wf noise sensor s).2.fertilizer_applied := by
  unfold advance_day
  dsimp only
  split_ifs with hterm
  · exact ⟨le_refl _, le_refl _⟩
  · have hA := de_amounts_nonneg
      (update_pest_pressure (wf s.day_counter) (update_crop_growth
        (wf s.day_counter) (update_soil_moisture (wf s.day_counter) noise s)))
      sensor (wf s.day_counter)
    constructor
    · rw [ue_irr, ea_irr]
      split_ifs with hirr
      · rw [upp_irr, ucg_irr, usm_irr]
        linarith [hA.1]
      · rw [upp_irr, ucg_irr, usm_irr]
    · rw [ue_fert, ea_fert]
      split_ifs with hfert
      · rw [upp_fert, ucg_fert, usm_fert]
        linarith [hA.2]
      · rw [upp_fert, ucg_fert, usm_fert]

/-- `water_used` does not decrease across a tick whenever this tick's
depletion `0.7 × evapotranspiration + noise` is non-negative. -/
theorem advance_day_water_mono (wf : ℕ → Weather) (noise : ℚ)
    (sensor : SensorData) (s : FarmState)
    (h : 0 ≤ 7/10 * (wf s.day_counter).evapotranspiration + noise) :
    s.water_used ≤ (advance_day wf noise sensor s).2.water_used := by
  unfold advance_day
  dsimp only
  split_ifs with hterm
  · exact le_refl _
  · have hA := de_amounts_nonneg
      (update_pest_pressure (wf s.day_counter) (update_crop_growth
        (wf s.day_counter) (update_soil_moisture (wf s.day_counter) noise s)))
      sensor (wf s.day_counter)
    rw [ue_water, ea_water]
    split_ifs with hirr
    · rw [upp_water, ucg_water, usm_water]
      linarith [hA.1]
    · rw [upp_water, ucg_water, usm_water]
      linarith

/-- In the simpler engine all three cumulative counters are unconditionally
non-decreasing: every increment is a non-negative constant times the farm
size, or the constant 10. -/
theorem simulate_day_counters_mono (evap rain pestd : ℚ) (t : SimFarm) :
    t.water_used ≤ (simulate_day evap rain pestd t).2.water_used ∧
    t.irrigation_applied ≤ (simulate_day evap rain pestd t).2.irrigation_applied ∧
    t.fertilizer_applied ≤ (simulate_day evap rain pestd t).2.fertilizer_applied := by
  have hsz : (0:ℚ) ≤ (1/20) * (t.size : ℚ) := by positivity
  unfold simulate_day
  dsimp only
  refine ⟨?_, ?_, ?_⟩
  · split_ifs with h
    · linarith
    · norm_num
  · split_ifs with h
    · linarith
    · norm_num
  · split_ifs <;> linarith

/-- C3 (amended): the cumulative counters `irrigation_applied` and
`fertilizer_applied` never decrease across consecutive ticks for any seed;
`water_used` never decreases on any tick whose depletion
`0.7 × evapotranspiration + Gaussian noise` is non-negative (the unbounded
Gaussian draw can make the depletion negative, in which case `water_used`
decreases — see the counterexample); in the simpler engine all three
counters are unconditionally non-decreasing. -/
theorem spec_c3_counters_monotone :
    (∀ (wf : ℕ → Weather) (noise : ℚ) (sensor : SensorData) (s : FarmState),
      s.irrigation_applied ≤
          (advance_day wf noise sensor s).2.irrigation_applied ∧
        s.fertilizer_applied ≤
          (advance_day wf noise sensor s).2.fertilizer_applied) ∧
    (∀ (wf : ℕ → Weather) (noise : ℚ) (sensor : SensorData) (s : FarmState),
      0 ≤ 7/10 * (wf s.day_counter).evapotranspiration + noise →
      s.water_used ≤ (advance_day wf noise sensor s).2.water_used) ∧
    (∀ (evap rain pestd : ℚ) (t : SimFarm),
      t.water_used ≤ (simulate_day evap rain pestd t).2.water_used ∧
      t.irrigation_applied ≤
        (simulate_day evap rain pestd t).2.irrigation_applied ∧
      t.fertilizer_applied ≤
        (simulate_day evap rain pestd t).2.fertilizer_applied) :=
  ⟨advance_day_counters_mono, advance_day_water_mono, simulate_day_counters_mono⟩

/-- C3 counterexample: `update_soil_moisture` adds the signed depletion
`0.7 × evapotranspiration + noise` to `water_used`.  On a day with
evapotranspiration 0 and a Gaussian draw of −1 the depletion is −1, so
one tick takes `water_used` from 0 to −1: the counter decreases (the
sensor reading 25 keeps the decision engine from irrigating). -/
theorem spec_c3_counterexample :
    (advance_day (fun _ => ⟨20, 0, 0⟩) (-1) ⟨25, 0, 40, 0⟩
        (mkVirtualFarm 10 "wheat" "loam" 120 ⟨25, 25, 25⟩)).2.water_used <
      (mkVirtualFarm 10 "wheat" "loam" 120 ⟨25, 25, 25⟩).water_used := by
  have hterm : ¬ ((mkVirtualFarm 10 "wheat" "loam" 120 ⟨25, 25, 25⟩).days ≤
      (mkVirtualFarm 10 "wheat" "loam" 120 ⟨25, 25, 25⟩).day_counter) := by
    norm_num [mkVirtualFarm]
  have hirr : ∀ (s' : FarmState) (w' : Weather),
      (decision_engine s' ⟨25, 0, 40, 0⟩ w').irrigate = false := by
    intro s' w'
    unfold decision_engine
    dsimp only
    rw [decide_eq_false_iff_not]
    norm_num
  unfold advance_day
  rw [if_neg hterm]
  dsimp only
  rw [ue_water, ea_water, if_neg (by rw [hirr]; exact Bool.false_ne_true),
    upp_water, ucg_water, usm_water]
  norm_num [mkVirtualFarm]

/-- Witness for C3: one ordinary tick (evapotranspiration 4, zero noise)
from a fresh farm does not decrease `water_used`. -/
theorem spec_c3_counters_monotone_witness :
    (mkVirtualFarm 10 "wheat" "loam" 120 ⟨25, 25, 25⟩).water_used ≤
      (advance_day (fun _ => ⟨20, 0, 4⟩) 0 ⟨25, 0, 40, 0⟩
        (mkVirtualFarm 10 "wheat" "loam" 120 ⟨25, 25, 25⟩)).2.water_used :=
  spec_c3_counters_monotone.2.1 _ _ _ _ (by norm_num)

/-- C2: in both engines, after every number of ticks from a freshly
constructed farm, `pest_pressure` and `crop_growth_stage` lie in `[0, 1]`.
For the weather-driven engine this holds for every crop/soil/size/horizon
configuration, every weather profile generated from any draws (the `sins`
oracle stands for `sin(2π·d/days)`, hence the `-1 ≤ sins d` fact), every
moisture-noise stream and every sensor-observation stream; for the simpler
engine it holds for every configuration and draw stream, the initial
moisture draws being the non-negative `uniform(0.2, 0.5)` values. -/
theorem spec_c2_pest_growth_unit_interval :
    (∀ (crop soil : String) (size_ha : ℚ) (days : ℕ) (v : Vec3)
        (sins weibs norms noises : ℕ → ℚ) (sensors : ℕ → SensorData),
      (∀ d, -1 ≤ sins d) → ∀ n,
      (0 ≤ (run_days (generate_weather_profile crop sins weibs norms) noises
          sensors n (mkVirtualFarm size_ha crop soil days v)).pest_pressure ∧
        (run_days (generate_weather_profile crop sins weibs norms) noises
          sensors n (mkVirtualFarm size_ha crop soil days v)).pest_pressure ≤ 1) ∧
      (0 ≤ (run_days (generate_weather_profile crop sins weibs norms) noises
          sensors n (mkVirtualFarm size_ha crop soil days v)).crop_growth_stage ∧
        (run_days (generate_weather_profile crop sins weibs norms) noises
          sensors n
            (mkVirtualFarm size_ha crop soil days v)).crop_growth_stage ≤ 1)) ∧
    (∀ (size_ha days : ℕ) (draws : List ℚ) (evaps rains pestds : ℕ → ℚ),
      (∀ m ∈ draws, 0 ≤ m) → ∀ n,
      (0 ≤ (sim_run evaps rains pestds n
          (mkSimFarm size_ha days draws)).pest_pressure ∧
        (sim_run evaps rains pestds n
          (mkSimFarm size_ha days draws)).pest_pressure ≤ 1) ∧
      (0 ≤ (sim_run evaps rains pestds n
          (mkSimFarm size_ha days draws)).crop_growth_stage ∧
        (sim_run evaps rains pestds n
          (mkSimFarm size_ha days draws)).crop_growth_stage ≤ 1)) := by
  constructor
  · intro crop soil size_ha days v sins weibs norms noises sensors hs n
    exact run_days_bounds (generate_weather_profile crop sins weibs norms)
      noises sensors (mkVirtualFarm size_ha crop soil days v)
      (fun d => generated_temperature_nonneg crop sins weibs norms d (hs d))
      (le_refl 0) (by norm_num [mkVirtualFarm])
      (le_refl 0) (by norm_num [mkVirtualFarm]) n
  · intro size_ha days draws evaps rains pestds hdraws n
    obtain ⟨hp, hg, _⟩ := sim_run_bounds evaps rains pestds
      (mkSimFarm size_ha days draws) hdraws
      (by norm_num [mkSimFarm]) (by norm_num [mkSimFarm])
      (le_refl 0) (by norm_num [mkSimFarm]) n
    exact ⟨hp, hg⟩

/-- Witness for C2: a concrete one-tick instantiation for each engine
(constant weather draws, wheat/loam 10 ha for 120 days; one hectare,
one moisture draw 0.3 for the simpler engine). -/
theorem spec_c2_pest_growth_unit_interval_witness :
    ((0 ≤ (run_days (generate_weather_profile "wheat" (fun _ => 0)
        (fun _ => 1) (fun _ => 0)) (fun _ => 0) (fun _ => ⟨25, 0, 40, 0⟩) 1
        (mkVirtualFarm 10 "wheat" "loam" 120 ⟨25, 25, 25⟩)).pest_pressure ∧
      (run_days (generate_weather_profile "wheat" (fun _ => 0)
        (fun _ => 1) (fun _ => 0)) (fun _ => 0) (fun _ => ⟨25, 0, 40, 0⟩) 1
        (mkVirtualFarm 10 "wheat" "loam" 120 ⟨25, 25, 25⟩)).pest_pressure ≤ 1) ∧
     (0 ≤ (run_days (generate_weather_profile "wheat" (fun _ => 0)
        (fun _ => 1) (fun _ => 0)) (fun _ => 0) (fun _ => ⟨25, 0, 40, 0⟩) 1
        (mkVirtualFarm 10 "wheat" "loam" 120 ⟨25, 25, 25⟩)).crop_growth_stage ∧
      (run_days (generate_weather_profile "wheat" (fun _ => 0)
        (fun _ => 1) (fun _ => 0)) (fun _ => 0) (fun _ => ⟨25, 0, 40, 0⟩) 1
        (mkVirtualFarm 10 "wheat" "loam" 120
          ⟨25, 25, 25⟩)).crop_growth_stage ≤ 1)) ∧
    ((0 ≤ (sim_run (fun _ => 1/50) (fun _ => 0) (fun _ => 1/100) 1
        (mkSimFarm 1 120 [3/10])).pest_pressure ∧
      (sim_run (fun _ => 1/50) (fun _ => 0) (fun _ => 1/100) 1
        (mkSimFarm 1 120 [3/10])).pest_pressure ≤ 1) ∧
     (0 ≤ (sim_run (fun _ => 1/50) (fun _ => 0) (fun _ => 1/100) 1
        (mkSimFarm 1 120 [3/10])).crop_growth_stage ∧
      (sim_run (fun _ => 1/50) (fun _ => 0) (fun _ => 1/100) 1
        (mkSimFarm 1 120 [3/10])).crop_growth_stage ≤ 1)) :=
  ⟨spec_c2_pest_growth_unit_interval.1 "wheat" "loam" 10 120 ⟨25, 25, 25⟩
      (fun _ => 0) (fun _ => 1) (fun _ => 0) (fun _ => 0)
      (fun _ => ⟨25, 0, 40, 0⟩) (fun _ => by norm_num) 1,
   spec_c2_pest_growth_unit_interval.2 1 120 [3/10]
      (fun _ => 1/50) (fun _ => 0) (fun _ => 1/100)
      (by intro m hm; simp at hm; norm_num [hm]) 1⟩

end Agri
